import Mathlib

/-!
Shallow embedding of the ARM compatibility dependency-resolution core:
`pypi_api.py` (registry inspection, version resolution, result cache),
`wheel_test_api.py` (one-shot wheel-tester feed fetch) and
`python_package_compatibility.py` (orchestrator merging registry and
wheel-tester evidence), from
`src/lambdas/ARMCompatibilityBot_lambda/src/analyze_tools/dependency_tools/python/`.

Network effects are modelled by passing the fetch outcome as an explicit
argument; module-level caches are modelled as explicit state threaded
through the functions.
-/

namespace ArmChecker

/-- Generic association-list lookup keyed by strings, modelling Python
dict membership/lookup. -/
def lookupAssoc {α : Type} : List (String × α) → String → Option α
  | [], _ => none
  | (k', v) :: rest, k => if k' = k then some v else lookupAssoc rest k

/-- Boolean test that `pat` is a prefix of the second list. -/
def listPrefixOf : List Char → List Char → Bool
  | [], _ => true
  | _ :: _, [] => false
  | a :: as, b :: bs => a == b && listPrefixOf as bs

/-- Boolean substring search on character lists. -/
def subSearch (pat : List Char) : List Char → Bool
  | [] => listPrefixOf pat []
  | c :: rest => listPrefixOf pat (c :: rest) || subSearch pat rest

/-- Python `pat in s` substring containment on strings. -/
def containsSub (s pat : String) : Bool := subSearch pat.toList s.toList

/-- Split a character list on a separator character, modelling Python
`str.split(sep)` for a one-character separator. -/
def splitOnChar (sep : Char) : List Char → List (List Char)
  | [] => [[]]
  | c :: rest =>
    let r := splitOnChar sep rest
    if c = sep then [] :: r
    else
      match r with
      | [] => [[c]]
      | h :: t => (c :: h) :: t

/-- String version of `splitOnChar`. -/
def splitStr (sep : Char) (s : String) : List String :=
  (splitOnChar sep s.toList).map List.asString

/-- Interpret a list of decimal digit characters as a natural number. -/
def digitsToNat (l : List Char) : Nat :=
  l.foldl (fun n c => n * 10 + (c.toNat - '0'.toNat)) 0

/-- Model of `packaging.version.parse` restricted to release segments:
a dotted sequence of decimal numerals parses to its list of segments,
anything else raises `InvalidVersion` (here: `none`). -/
def parseVersion (s : String) : Option (List Nat) :=
  let parts := splitOnChar '.' s.toList
  if parts.all (fun p => !p.isEmpty && p.all (·.isDigit)) then
    some (parts.map digitsToNat)
  else none

/-- Render a parsed version back to its dotted string, modelling
`str(Version)` on release-only versions. -/
def verToString (v : List Nat) : String :=
  String.intercalate "." (v.map toString)

/-- Lexicographic comparison of segment lists (shorter list is smaller
when it is a proper prefix). -/
def lexCmp : List Nat → List Nat → Ordering
  | [], [] => .eq
  | [], _ :: _ => .lt
  | _ :: _, [] => .gt
  | a :: as, b :: bs =>
    if a < b then .lt else if b < a then .gt else lexCmp as bs

/-- Drop trailing zero segments, so that comparison pads with zeros as
PEP 440 release comparison does. -/
def normRelease (v : List Nat) : List Nat :=
  (v.reverse.dropWhile (· == 0)).reverse

/-- PEP 440 release-version comparison (zero-padded), modelling the
ordering of `packaging.version.Version` on release-only versions. -/
def verCmp (a b : List Nat) : Ordering :=
  lexCmp (normRelease a) (normRelease b)

/-- Comparison operators admitted in a version specifier clause. -/
inductive CmpOp
  | eq | ne | ge | le | gt | lt
  deriving DecidableEq, Repr

/-- One comparison clause of a version specifier. -/
structure Clause where
  op : CmpOp
  ver : List Nat
  deriving DecidableEq, Repr

/-- Parse one specifier clause (operator followed by a version). -/
def parseClauseChars : List Char → Option Clause
  | '>' :: '=' :: rest => (parseVersion rest.asString).map (fun v => ⟨.ge, v⟩)
  | '<' :: '=' :: rest => (parseVersion rest.asString).map (fun v => ⟨.le, v⟩)
  | '=' :: '=' :: rest => (parseVersion rest.asString).map (fun v => ⟨.eq, v⟩)
  | '!' :: '=' :: rest => (parseVersion rest.asString).map (fun v => ⟨.ne, v⟩)
  | '>' :: rest => (parseVersion rest.asString).map (fun v => ⟨.gt, v⟩)
  | '<' :: rest => (parseVersion rest.asString).map (fun v => ⟨.lt, v⟩)
  | _ => none

/-- Model of `packaging.specifiers.SpecifierSet`: split on commas,
ignore blank pieces, and require every remaining piece to parse as a
clause; otherwise `InvalidSpecifier` (here: `none`). -/
def parseSpecifierSet (s : String) : Option (List Clause) :=
  let pieces := (splitOnChar ',' s.toList).filter (fun p => !p.isEmpty)
  if pieces.all (fun p => (parseClauseChars p).isSome) then
    some (pieces.filterMap parseClauseChars)
  else none

/-- Does version `v` satisfy one clause? -/
def satisfiesClause (v : List Nat) (c : Clause) : Bool :=
  match c.op, verCmp v c.ver with
  | .eq, .eq => true
  | .eq, _ => false
  | .ne, .eq => false
  | .ne, _ => true
  | .ge, .lt => false
  | .ge, _ => true
  | .le, .gt => false
  | .le, _ => true
  | .gt, .gt => true
  | .gt, _ => false
  | .lt, .lt => true
  | .lt, _ => false

/-- Does version `v` satisfy every clause of the specifier set
(comma-separated clauses are conjoined)? -/
def satisfiesAll (v : List Nat) (cs : List Clause) : Bool :=
  cs.all (satisfiesClause v)

/-- Left fold computing the maximum version, modelling Python
`max(allowed_versions)` (keeps the earlier element on ties). -/
def maxVer (v : List Nat) (vs : List (List Nat)) : List Nat :=
  vs.foldl (fun acc u => if verCmp u acc = .gt then u else acc) v

/-- Version resolution from `pypi_api.py` lines 112-157: parse every
candidate version string, silently skipping unparsable ones, filter by
the specifier set (pre-releases included), and select the maximum
satisfying version; `none` when no version satisfies. -/
def resolveVersion (specifier_set : List Clause) (versions : List String) :
    Option (List Nat) :=
  let candidate_versions := versions.filterMap parseVersion
  let allowed_versions :=
    candidate_versions.filter (fun v => satisfiesAll v specifier_set)
  match allowed_versions with
  | [] => none
  | v :: vs => some (maxVer v vs)

/-- The three-or-four-valued compatibility verdict: Python
`True`, `False`, `"partial"`, `"unknown"`. -/
inductive Compat
  | ctrue | cfalse | partialC | unknown
  deriving DecidableEq, Repr

/-- Result dictionary of `check_pypi_package_arm_compatibility`. -/
structure PyPIResult where
  compatible : Compat
  reason : String
  warning : Option String := none
  checked_version : Option String := none
  deriving DecidableEq, Repr

/-- The `packagetype` field of a PyPI release artifact. -/
inductive PackageType
  | bdistWheel | sdistT | other
  deriving DecidableEq, Repr

/-- One release artifact entry of a PyPI version, with the fields the
code reads: `yanked`, `yanked_reason`, `filename`, `packagetype`. -/
structure ReleaseFile where
  yanked : Bool
  yanked_reason : Option String
  filename : String
  packagetype : PackageType
  deriving DecidableEq, Repr

/-- The `info` block fields the code reads: `classifiers`, `platform`. -/
structure PkgInfo where
  classifiers : List String
  platform : Option String
  deriving DecidableEq, Repr

/-- Render an optional string the way a Python f-string renders the
value: `None` for an absent value. -/
def pyStr : Option String → String
  | none => "None"
  | some s => s

/-- Python `filename.rsplit("-", 3)`: split from the right at most
three times. -/
def pyRsplit3 (s : String) : List String :=
  let ps := splitStr '-' s
  if ps.length ≤ 4 then ps
  else [String.intercalate "-" (ps.take (ps.length - 3))] ++ ps.drop (ps.length - 3)

/-- Characters before the first occurrence of `pat`, modelling
`s.split(pat)[0]`. -/
def takeBeforeSub (pat : List Char) : List Char → List Char
  | [] => []
  | c :: rest =>
    if listPrefixOf pat (c :: rest) then []
    else c :: takeBeforeSub pat rest

/-- Extract the wheel tag portion of a wheel filename, following
`pypi_api.py` lines 230-237: rsplit on the last three hyphens, require
at least three parts with `.whl` in the last, and take the last part up
to `.whl`. -/
def wheelTags (filename : String) : Option String :=
  let parts := pyRsplit3 filename
  match parts.getLast? with
  | none => none
  | some lastPart =>
    if parts.length ≥ 3 && containsSub lastPart ".whl" then
      some (takeBeforeSub ".whl".toList lastPart.toList).asString
    else none

/-- Evidence class a single wheel contributes to. -/
inductive WheelClass
  | armW | otherArchW | universalW | noneW
  deriving DecidableEq, Repr

/-- Classification of one wheel tag string, following the elif chain of
`pypi_api.py` lines 240-266: ARM identifiers first, then x86
identifiers, then universal tags (`universal2` counts as ARM only with
`macosx`; `any` counts as universal only without `win`/`linux`/`macosx`). -/
def classifyWheelTags (wheel_tags : String) : WheelClass :=
  if ["aarch64", "arm64"].any (fun a => containsSub wheel_tags a) then .armW
  else if ["win_amd64", "amd64", "x86_64", "x64"].any
      (fun a => containsSub wheel_tags a) then .otherArchW
  else if ["any", "universal2"].any (fun a => containsSub wheel_tags a) then
    if containsSub wheel_tags "universal2" && containsSub wheel_tags "macosx" then
      .armW
    else if containsSub wheel_tags "any" &&
        !(["win", "linux", "macosx"].any (fun a => containsSub wheel_tags a)) then
      .universalW
    else .noneW
  else .noneW

/-- The four evidence lists accumulated over the release files. -/
structure DistClasses where
  arm_wheels : List String
  universal_wheels : List String
  sdist_files : List String
  other_arch_wheels : List String
  deriving DecidableEq, Repr

/-- Accumulate the evidence lists over the release files, skipping
yanked files, following `pypi_api.py` lines 215-270. -/
def classifyReleases (files : List ReleaseFile) : DistClasses :=
  files.foldl
    (fun dc release =>
      if release.yanked then dc
      else
        match release.packagetype with
        | .bdistWheel =>
          match wheelTags release.filename with
          | none => dc
          | some tags =>
            match classifyWheelTags tags with
            | .armW => { dc with arm_wheels := dc.arm_wheels ++ [release.filename] }
            | .otherArchW =>
              { dc with other_arch_wheels := dc.other_arch_wheels ++ [release.filename] }
            | .universalW =>
              { dc with universal_wheels := dc.universal_wheels ++ [release.filename] }
            | .noneW => dc
        | .sdistT => { dc with sdist_files := dc.sdist_files ++ [release.filename] }
        | .other => dc)
    ⟨[], [], [], []⟩

/-- Native-extension indicators read from the info block: C/C++/Cython
classifiers or a non-empty, non-`any` platform marker
(`pypi_api.py` lines 287-296). -/
def nativeIndicators (info : PkgInfo) : Bool :=
  let has_c_extension :=
    info.classifiers.any (fun c => containsSub c "Programming Language :: C") ||
      info.classifiers.any (fun c => containsSub c "Programming Language :: C++")
  let has_cython :=
    info.classifiers.any (fun c => containsSub c "Programming Language :: Cython")
  let is_platform_specific :=
    match info.platform with
    | none => false
    | some p => !(p == "" || p == "any")
  has_c_extension || has_cython || is_platform_specific

/-- The compatibility decision over the accumulated evidence classes,
following the if/elif chain of `pypi_api.py` lines 272-322. -/
def decideCompatibility (dc : DistClasses) (info : PkgInfo) (yanked : Bool)
    (v : String) : PyPIResult :=
  if dc.arm_wheels ≠ [] then
    { compatible := .ctrue,
      reason := s!"ARM-specific wheels found for version {v}." }
  else if dc.universal_wheels ≠ [] then
    { compatible := .ctrue,
      reason := s!"Platform-agnostic wheels ('any') found for version {v}." }
  else if dc.sdist_files ≠ [] then
    if nativeIndicators info then
      let pi := pyStr info.platform
      { compatible := .partialC,
        reason := s!"Source distribution found for {v}, but it may require compilation on ARM64 (contains C/C++/Cython or platform markers: '{pi}')." }
    else
      { compatible := .ctrue,
        reason := s!"Likely pure Python source distribution found for {v}." }
  else if dc.other_arch_wheels ≠ [] then
    { compatible := .cfalse,
      reason := s!"Only non-ARM wheels (e.g., x86_64) found for non-yanked files of version {v}." }
  else
    { compatible := if yanked then .unknown else .cfalse,
      reason := s!"No non-yanked wheels or source distribution found for version {v} on PyPI." }

/-- Whether the target version is yanked: the version-level flag (first
file's entry) or any file yanked (`pypi_api.py` line 199). -/
def computeYanked (files : List ReleaseFile) : Bool :=
  (match files.head? with
   | some f => f.yanked
   | none => false) || files.any (·.yanked)

/-- The yank reason: the version-level field, else the first yanked
file's reason with a default (`pypi_api.py` lines 202-208). -/
def computeYankedReason (files : List ReleaseFile) : Option String :=
  let init := files.head?.bind (·.yanked_reason)
  if computeYanked files && (init.getD "" == "") then
    match files.find? (·.yanked) with
    | some f => some (f.yanked_reason.getD "No reason provided")
    | none => init
  else init

/-- Analysis of one resolved version's release files: classify, decide,
attach the yank warning, and record the checked version
(`pypi_api.py` lines 187-333). -/
def analyzeVersion (release_files : List ReleaseFile) (info : PkgInfo)
    (target_version : String) : PyPIResult :=
  let yanked := computeYanked release_files
  let yanked_reason := computeYankedReason release_files
  let dc := classifyReleases release_files
  let base := decideCompatibility dc info yanked target_version
  let base :=
    if yanked then
      let yr := pyStr yanked_reason
      { base with
        warning := some s!"Version {target_version} has been yanked: {yr}" }
    else base
  { base with checked_version := some target_version }

/-- PEP 503 name canonicalization, modelling
`packaging.utils.canonicalize_name`: lowercase and collapse runs of
`-`, `_`, `.` to a single `-`. -/
def canonicalizeName (s : String) : String :=
  (collapseRuns (s.toList.map
    (fun c => if c = '-' || c = '_' || c = '.' then '-' else c.toLower))).asString
where
  collapseRuns : List Char → List Char
    | [] => []
    | [c] => [c]
    | c :: d :: rest =>
      if c = '-' && d = '-' then collapseRuns (d :: rest)
      else c :: collapseRuns (d :: rest)

/-- The module-level `PYPI_CACHE` dictionary, as explicit state. -/
abbrev PyPICache := List (String × PyPIResult)

/-- Registry JSON payload fields the code reads on a 200 response. -/
structure PyPIData where
  releases : List (String × List ReleaseFile)
  info_version : Option String
  info : PkgInfo
  deriving DecidableEq, Repr

/-- Outcome of the registry HTTP fetch, passed explicitly: 404,
other non-200 status, network error, or a parsed 200 payload. -/
inductive FetchOutcome
  | notFound
  | httpError (code : Nat)
  | netError (msg : String)
  | ok (data : PyPIData)
  deriving DecidableEq, Repr

/-- Analysis step for a resolved target version string: look its files
up in the releases dict (internal-inconsistency error when absent, not
cached), analyze, and cache the result
(`pypi_api.py` lines 173-340). -/
def analyzeTarget (cache : PyPICache) (cache_key : String) (data : PyPIData)
    (target_version : String) : PyPIResult × PyPICache :=
  match lookupAssoc data.releases target_version with
  | none =>
    ({ compatible := .unknown,
       reason := s!"Internal error: Target version {target_version} details missing.",
       checked_version := some target_version }, cache)
  | some release_files =>
    let r := analyzeVersion release_files data.info target_version
    (r, (cache_key, r) :: cache)

/-- Python truthiness of the optional specifier argument: an empty
string counts as no specifier. -/
def normalizeSpec : Option String → Option String
  | some "" => none
  | x => x

/-- The cache key of `pypi_api.py` lines 48-52: canonical name, with
`@specifier` appended when a (truthy) specifier is given. -/
def pypiCacheKey (package_name : String) (spec : Option String) : String :=
  match normalizeSpec spec with
  | some sp => canonicalizeName package_name ++ "@" ++ sp
  | none => canonicalizeName package_name

/-- The registry check `check_pypi_package_arm_compatibility` of
`pypi_api.py`, over explicit cache state and fetch outcome: cache
lookup first; 404, invalid specifier and unsatisfiable specifier
results are cached; non-200/non-404 and network errors are returned
without caching; otherwise the target version is resolved and analyzed
and the result cached. -/
def check_pypi_package_arm_compatibility (cache : PyPICache)
    (package_name : String) (package_version_specifier : Option String)
    (resp : FetchOutcome) : PyPIResult × PyPICache :=
  let normalized_name := canonicalizeName package_name
  let spec? := normalizeSpec package_version_specifier
  let cache_key := pypiCacheKey package_name package_version_specifier
  match lookupAssoc cache cache_key with
  | some r => (r, cache)
  | none =>
    match resp with
    | .notFound =>
      let r : PyPIResult :=
        { compatible := .unknown,
          reason := s!"Package '{normalized_name}' not found on PyPI." }
      (r, (cache_key, r) :: cache)
    | .httpError code =>
      ({ compatible := .unknown,
         reason := s!"PyPI API error for '{normalized_name}': HTTP {code}" }, cache)
    | .netError msg =>
      ({ compatible := .unknown,
         reason := s!"Network error checking PyPI: {msg}" }, cache)
    | .ok data =>
      let available_versions_str := data.releases.map Prod.fst
      match spec? with
      | some sp =>
        match parseSpecifierSet sp with
        | none =>
          let r : PyPIResult :=
            { compatible := .unknown,
              reason := s!"Invalid version specifier: '{sp}'" }
          (r, (cache_key, r) :: cache)
        | some specifier_set =>
          match resolveVersion specifier_set available_versions_str with
          | none =>
            let preview := String.intercalate ", "
              (available_versions_str.drop (available_versions_str.length - 5))
            let r : PyPIResult :=
              { compatible := .unknown,
                reason := s!"No version found satisfying '{sp}'. Latest available: {preview}..." }
            (r, (cache_key, r) :: cache)
          | some maxv =>
            analyzeTarget cache cache_key data (verToString maxv)
      | none =>
        match data.info_version with
        | none =>
          ({ compatible := .unknown,
             reason := "Could not determine latest version from PyPI info." }, cache)
        | some tv =>
          if tv = "" then
            ({ compatible := .unknown,
               reason := "Could not determine latest version from PyPI info." }, cache)
          else analyzeTarget cache cache_key data tv

/-- Parsed wheel-tester feed: package name to environment name to test
outcome. -/
structure WheelTestEnvResult where
  test_passed : Option Bool
  build_required : Option Bool
  deriving DecidableEq, Repr

/-- One package's per-environment wheel-tester entries, as an
association list keyed by environment name. -/
abbrev PackageTests := List (String × WheelTestEnvResult)

/-- The whole feed snapshot: package name to its entries. -/
abbrev WheelFeed := List (String × List (String × WheelTestEnvResult))

/-- The module-level state of `wheel_test_api.py`:
`_latest_results_cache` and `_cache_fetched`. -/
structure FeedState where
  latest_results_cache : Option WheelFeed
  cache_fetched : Bool
  deriving Repr

/-- Initial module state: no cached snapshot, fetch not yet attempted. -/
def initFeedState : FeedState := ⟨none, false⟩

/-- Outcome of one attempted feed fetch: a parsed snapshot, or any
failure (network error, no successful run, no artifact, malformed
archive/JSON, missing auth token). -/
inductive FeedFetchOutcome
  | success (snapshot : WheelFeed)
  | failure
  deriving Repr

/-- The fetch-once feed accessor `get_latest_wheel_tester_results` of
`wheel_test_api.py`: on a prior attempt return the cached value without
fetching; otherwise fetch (outcome passed explicitly), cache a
successful snapshot, and in every case mark the fetch as attempted.
The returned `Bool` records whether a fetch was performed. -/
def get_latest_wheel_tester_results (st : FeedState)
    (outcome : FeedFetchOutcome) : Option WheelFeed × FeedState × Bool :=
  if st.cache_fetched then (st.latest_results_cache, st, false)
  else
    match outcome with
    | .success snapshot => (some snapshot, ⟨some snapshot, true⟩, true)
    | .failure => (none, ⟨st.latest_results_cache, true⟩, true)

/-- Python `final_reason.rstrip(".")`: drop all trailing dots. -/
def rstripDots (s : String) : String :=
  (s.toList.reverse.dropWhile (· == '.')).reverse.asString

/-- The orchestrator's name cleanup
(`python_package_compatibility.py` line 55): lowercase and replace
underscores with hyphens. -/
def cleanPackageName (s : String) : String :=
  ((s.toList.map Char.toLower).map
    (fun c => if c = '_' then '-' else c)).asString

/-- Environment priority order of the wheel-tester merge
(`python_package_compatibility.py` line 117). -/
def envOrder : List String := ["noble", "jammy", "focal"]

/-- Scan the environments in priority order
(`python_package_compatibility.py` lines 112-134): the first
environment with `test-passed` true wins (with its `build-required`
flag); otherwise the first present-but-failing environment is
recorded. -/
def scanWheelEnvs : List String → List (String × WheelTestEnvResult) →
    Option (String × Bool) × List String
  | [], _ => (none, [])
  | e :: es, tests =>
    match lookupAssoc tests e with
    | none => scanWheelEnvs es tests
    | some tr =>
      if tr.test_passed = some true then
        (some (e, tr.build_required = some true), [])
      else
        match scanWheelEnvs es tests with
        | (p, _) => (p, [e])

/-- Merge the wheel-tester entries for a package into the verdict so
far, following `python_package_compatibility.py` lines 112-153: a pass
overrides to compatible; a failure with no pass downgrades to
incompatible unless the current verdict is `True` or `"partial"`,
appending detail for `"partial"` (the `False` append branch is kept
although the preceding membership test already captures `False`). -/
def mergeTester (final_compatibility : Compat) (final_reason : String)
    (tests : List (String × WheelTestEnvResult)) : Compat × String :=
  match scanWheelEnvs envOrder tests with
  | (some (env, build_required), _) =>
    (.ctrue, s!"Passed on {env} in Wheel Tester." ++
      (if build_required then " (Build was required)." else ""))
  | (none, []) => (final_compatibility, final_reason)
  | (none, failed_env :: _) =>
    if final_compatibility ≠ .ctrue ∧ final_compatibility ≠ .partialC then
      (.cfalse, s!"Failed on {failed_env} in Wheel Tester.")
    else if final_compatibility = .partialC then
      (final_compatibility,
        final_reason ++ s!" Additionally, failed on {failed_env} in Wheel Tester.")
    else if final_compatibility = .cfalse then
      (final_compatibility,
        final_reason ++ s!" Also failed on {failed_env} in Wheel Tester.")
    else (final_compatibility, final_reason)

/-- The orchestrator's returned record
(`python_package_compatibility.py` lines 183-193), without the
debug-info payload. -/
structure FinalVerdict where
  dependency : String
  name : String
  version_spec : Option String
  compatible : Compat
  reason : String
  direct : Bool
  parent : Option String
  deriving DecidableEq, Repr

/-- The orchestrator `check_python_package_compatibility` of
`python_package_compatibility.py`: the registry sub-result and the
feed snapshot are passed explicitly (`none` for the registry models the
caught exception; `none` for the feed models a failed fetch). Registry
verdict first, wheel-tester merge second, then the final reason
cleanup for `"partial"`/`"unknown"` and the yank-warning append. -/
def check_python_package_compatibility (package_name : String)
    (version_spec : Option String) (original_line : Option String)
    (direct : Bool) (parent : Option String)
    (pypi_result : Option PyPIResult) (feed : Option WheelFeed) :
    FinalVerdict :=
  let clean_name := cleanPackageName package_name
  let pypi_warning := pypi_result.bind (·.warning)
  let step1 : Compat × String :=
    match pypi_result with
    | none => (.unknown, "Compatibility status could not be determined.")
    | some r => (r.compatible, r.reason)
  let step2 : Compat × String :=
    match feed with
    | none => step1
    | some data =>
      if data.isEmpty then step1
      else
        match lookupAssoc data clean_name with
        | none => step1
        | some tests => mergeTester step1.1 step1.2 tests
  let final_compatibility := step2.1
  let final_reason := step2.2
  let final_reason :=
    if final_compatibility = .partialC then
      rstripDots final_reason ++ ". Source compilation might be required on ARM64."
    else if final_compatibility = .unknown then
      s!"Could not determine compatibility from PyPI or Wheel Tester ({final_reason}). Manual check recommended."
    else final_reason
  let final_reason :=
    match pypi_warning with
    | some w => if w = "" then final_reason
        else rstripDots final_reason ++ " (Warning: " ++ w ++ ")"
    | none => final_reason
  { dependency := original_line.getD package_name,
    name := package_name,
    version_spec := version_spec,
    compatible := final_compatibility,
    reason := final_reason,
    direct := direct,
    parent := parent }

/-! Order lemmas for the version comparison. -/

theorem lexCmp_refl (a : List Nat) : lexCmp a a = .eq := by
  induction a with
  | nil => rfl
  | cons x xs ih => simp [lexCmp, ih]

theorem lexCmp_gt_iff (a : List Nat) : ∀ b, lexCmp a b = .gt ↔ lexCmp b a = .lt := by
  induction a with
  | nil => intro b; cases b <;> simp [lexCmp]
  | cons x xs ih =>
    intro b
    cases b with
    | nil => simp [lexCmp]
    | cons y ys =>
      by_cases h1 : x < y
      · have h2 : ¬ y < x := by omega
        simp [lexCmp, h1, h2]
      · by_cases h2 : y < x
        · simp [lexCmp, h1, h2]
        · simp [lexCmp, h1, h2, ih]

theorem lexCmp_ng_trans (a : List Nat) :
    ∀ b c, lexCmp a b ≠ .gt → lexCmp b c ≠ .gt → lexCmp a c ≠ .gt := by
  induction a with
  | nil => intro b c _ _; cases c <;> simp [lexCmp]
  | cons x xs ih =>
    intro b c h1 h2
    cases b with
    | nil => simp [lexCmp] at h1
    | cons y ys =>
      cases c with
      | nil => simp [lexCmp] at h2
      | cons z zs =>
        by_cases hxy : x < y
        · by_cases hzy : z < y
          · exfalso; apply h2; simp [lexCmp, show ¬ y < z by omega, hzy]
          · simp [lexCmp, show x < z by omega]
        · by_cases hyx : y < x
          · exfalso; apply h1; simp [lexCmp, hxy, hyx]
          · have hxy' : x = y := by omega
            subst hxy'
            by_cases hxz : x < z
            · simp [lexCmp, hxz]
            · by_cases hzx : z < x
              · exfalso; apply h2; simp [lexCmp, hxz, hzx]
              · have g1 : lexCmp xs ys ≠ .gt := by
                  simpa [lexCmp, hxy, hyx] using h1
                have g2 : lexCmp ys zs ≠ .gt := by
                  simpa [lexCmp, hxz, hzx] using h2
                simpa [lexCmp, hxz, hzx] using ih ys zs g1 g2

theorem verCmp_refl (a : List Nat) : verCmp a a = .eq := lexCmp_refl _

theorem verCmp_gt_iff (a b : List Nat) : verCmp a b = .gt ↔ verCmp b a = .lt :=
  lexCmp_gt_iff _ _

theorem verCmp_ng_trans (a b c : List Nat) :
    verCmp a b ≠ .gt → verCmp b c ≠ .gt → verCmp a c ≠ .gt :=
  lexCmp_ng_trans _ _ _

theorem maxVer_spec (vs : List (List Nat)) : ∀ v : List Nat,
    (maxVer v vs = v ∨ maxVer v vs ∈ vs)
    ∧ verCmp v (maxVer v vs) ≠ .gt
    ∧ ∀ u ∈ vs, verCmp u (maxVer v vs) ≠ .gt := by
  induction vs with
  | nil =>
    intro v
    refine ⟨Or.inl rfl, ?_, by simp⟩
    simp [maxVer, verCmp_refl]
  | cons u us ih =>
    intro v
    have hstep : maxVer v (u :: us) = maxVer (if verCmp u v = .gt then u else v) us := rfl
    obtain ⟨hmem, hge, hall⟩ := ih (if verCmp u v = .gt then u else v)
    have hv_acc : verCmp v (if verCmp u v = .gt then u else v) ≠ .gt := by
      by_cases h : verCmp u v = .gt
      · have := (verCmp_gt_iff u v).mp h
        simp [h, this]
      · simp [h, verCmp_refl]
    have hu_acc : verCmp u (if verCmp u v = .gt then u else v) ≠ .gt := by
      by_cases h : verCmp u v = .gt
      · simp [h, verCmp_refl]
      · simp [h]
    refine ⟨?_, ?_, ?_⟩
    · rw [hstep]
      rcases hmem with h | h
      · rw [h]
        by_cases hc : verCmp u v = .gt
        · simp [hc]
        · simp [hc]
      · exact Or.inr (List.mem_cons_of_mem _ h)
    · rw [hstep]
      exact verCmp_ng_trans _ _ _ hv_acc hge
    · intro w hw
      rw [hstep]
      rcases List.mem_cons.mp hw with rfl | hw'
      · exact verCmp_ng_trans _ _ _ hu_acc hge
      · exact hall w hw'

theorem filterMap_parse_filter (vs : List String) :
    (vs.filter (fun s => (parseVersion s).isSome)).filterMap parseVersion
      = vs.filterMap parseVersion := by
  induction vs with
  | nil => rfl
  | cons s ss ih =>
    by_cases h : (parseVersion s).isSome
    · obtain ⟨v, hv⟩ := Option.isSome_iff_exists.mp h
      simp [List.filter_cons, h, List.filterMap_cons, hv, ih]
    · have hv : parseVersion s = none := Option.not_isSome_iff_eq_none.mp h
      simp [List.filter_cons, h, List.filterMap_cons, hv, ih]

/-- C4: for every version constraint that parses as a valid specifier
set and every registry version list, the resolver selects a version
satisfying every comma-separated clause and maximal, by version
precedence, among the parseable published versions that satisfy the
constraint; in particular, from versions 1.0.0, 1.1.0, 1.2.0, 2.0.0
under the constraint >=1.0.0,<2.0.0 it selects 1.2.0. -/
theorem c4_resolver_selects_max_satisfying :
    (∀ (s : String) (cs : List Clause) (vs : List String) (v : List Nat),
      parseSpecifierSet s = some cs → resolveVersion cs vs = some v →
      satisfiesAll v cs = true
      ∧ v ∈ vs.filterMap parseVersion
      ∧ ∀ u ∈ vs.filterMap parseVersion, satisfiesAll u cs = true → verCmp u v ≠ .gt)
    ∧ parseSpecifierSet ">=1.0.0,<2.0.0"
        = some [⟨.ge, [1, 0, 0]⟩, ⟨.lt, [2, 0, 0]⟩]
    ∧ resolveVersion [⟨.ge, [1, 0, 0]⟩, ⟨.lt, [2, 0, 0]⟩]
        ["1.0.0", "1.1.0", "1.2.0", "2.0.0"] = some [1, 2, 0]
    ∧ verToString [1, 2, 0] = "1.2.0" := by
  refine ⟨?_, by decide, by decide, by decide⟩
  intro s cs vs v _ hres0
  have hres : (match (vs.filterMap parseVersion).filter (fun w => satisfiesAll w cs) with
      | [] => none
      | a :: as => some (maxVer a as)) = some v := hres0
  cases hA : (vs.filterMap parseVersion).filter (fun w => satisfiesAll w cs) with
  | nil => rw [hA] at hres; simp at hres
  | cons a as =>
    rw [hA] at hres
    simp only [Option.some.injEq] at hres
    obtain ⟨hmem, hge, hall⟩ := maxVer_spec as a
    have hvmem : v ∈ a :: as := by
      rw [← hres]
      rcases hmem with h | h
      · rw [h]; exact List.mem_cons_self _ _
      · exact List.mem_cons_of_mem _ h
    have hvfil : v ∈ (vs.filterMap parseVersion).filter (fun w => satisfiesAll w cs) := by
      rw [hA]; exact hvmem
    have hsat := (List.mem_filter.mp hvfil).2
    refine ⟨hsat, (List.mem_filter.mp hvfil).1, ?_⟩
    intro u hu husat
    have hufil : u ∈ (vs.filterMap parseVersion).filter (fun w => satisfiesAll w cs) :=
      List.mem_filter.mpr ⟨hu, husat⟩
    rw [hA] at hufil
    rcases List.mem_cons.mp hufil with rfl | hu'
    · rw [← hres]; exact hge
    · rw [← hres]; exact hall u hu'

/-- C4 witness: the general resolver property applied to the concrete
example constraint and version list. -/
theorem c4_witness :
    satisfiesAll [1, 2, 0] [⟨.ge, [1, 0, 0]⟩, ⟨.lt, [2, 0, 0]⟩] = true
    ∧ [1, 2, 0] ∈ (["1.0.0", "1.1.0", "1.2.0", "2.0.0"].filterMap parseVersion) :=
  let h := c4_resolver_selects_max_satisfying.1 ">=1.0.0,<2.0.0"
    [⟨.ge, [1, 0, 0]⟩, ⟨.lt, [2, 0, 0]⟩]
    ["1.0.0", "1.1.0", "1.2.0", "2.0.0"] [1, 2, 0] (by decide) (by decide)
  ⟨h.1, h.2.1⟩

/-- C9: a registry version list containing unparsable entries resolves
exactly as the list of its parseable entries does (the bad entries are
silently skipped and the maximum satisfying valid version is still
selected); concretely, a list with "not-a-version" in it still
resolves. -/
theorem c9_malformed_version_tolerance :
    (∀ (cs : List Clause) (vs : List String),
      resolveVersion cs vs
        = resolveVersion cs (vs.filter (fun s => (parseVersion s).isSome)))
    ∧ resolveVersion [⟨.ge, [1, 0, 0]⟩]
        ["1.0.0", "not-a-version", "1.2.0"] = some [1, 2, 0] := by
  constructor
  · intro cs vs
    simp only [resolveVersion, filterMap_parse_filter]
  · decide

/-- The compatible value of the analyzed version is the one decided
from the evidence classes; the yank-warning attachment and the
checked-version stamp leave it unchanged. -/
theorem analyzeVersion_compatible (files : List ReleaseFile) (info : PkgInfo)
    (ver : String) :
    (analyzeVersion files info ver).compatible
      = (decideCompatibility (classifyReleases files) info
          (computeYanked files) ver).compatible := by
  simp only [analyzeVersion]
  cases h : computeYanked files <;> simp [h]

/-- C3: the registry inspector's verdict over a version's non-yanked
artifacts follows the fixed first-match-wins order: ARM wheel → true;
universal wheel → true; sdist with native-extension indicators →
partial; pure sdist → true; only other-architecture wheels → false;
nothing found → false when the version is not yanked, else unknown. -/
theorem c3_registry_decision_precedence (files : List ReleaseFile)
    (info : PkgInfo) (ver : String) :
    ((classifyReleases files).arm_wheels ≠ [] →
      (analyzeVersion files info ver).compatible = .ctrue)
    ∧ ((classifyReleases files).arm_wheels = [] →
       (classifyReleases files).universal_wheels ≠ [] →
      (analyzeVersion files info ver).compatible = .ctrue)
    ∧ ((classifyReleases files).arm_wheels = [] →
       (classifyReleases files).universal_wheels = [] →
       (classifyReleases files).sdist_files ≠ [] →
       nativeIndicators info = true →
      (analyzeVersion files info ver).compatible = .partialC)
    ∧ ((classifyReleases files).arm_wheels = [] →
       (classifyReleases files).universal_wheels = [] →
       (classifyReleases files).sdist_files ≠ [] →
       nativeIndicators info = false →
      (analyzeVersion files info ver).compatible = .ctrue)
    ∧ ((classifyReleases files).arm_wheels = [] →
       (classifyReleases files).universal_wheels = [] →
       (classifyReleases files).sdist_files = [] →
       (classifyReleases files).other_arch_wheels ≠ [] →
      (analyzeVersion files info ver).compatible = .cfalse)
    ∧ ((classifyReleases files).arm_wheels = [] →
       (classifyReleases files).universal_wheels = [] →
       (classifyReleases files).sdist_files = [] →
       (classifyReleases files).other_arch_wheels = [] →
       computeYanked files = false →
      (analyzeVersion files info ver).compatible = .cfalse)
    ∧ ((classifyReleases files).arm_wheels = [] →
       (classifyReleases files).universal_wheels = [] →
       (classifyReleases files).sdist_files = [] →
       (classifyReleases files).other_arch_wheels = [] →
       computeYanked files = true →
      (analyzeVersion files info ver).compatible = .unknown) := by
  refine ⟨?_, ?_, ?_, ?_, ?_, ?_, ?_⟩ <;>
    intro h1 <;>
    rw [analyzeVersion_compatible]
  · simp [decideCompatibility, h1]
  all_goals intro h2
  · simp [decideCompatibility, h1, h2]
  all_goals intro h3
  · intro h4; simp [decideCompatibility, h1, h2, h3, h4]
  · intro h4; simp [decideCompatibility, h1, h2, h3, h4]
  all_goals intro h4
  · simp [decideCompatibility, h1, h2, h3, h4]
  all_goals intro h5
  · simp [decideCompatibility, h1, h2, h3, h4, h5]
  · simp [decideCompatibility, h1, h2, h3, h4, h5]

/-- C3 witness: the precedence theorem applied to a concrete version
with one ARM wheel. -/
theorem c3_witness :
    (analyzeVersion
      [⟨false, none, "pkg-1.0-cp39-cp39-manylinux2014_aarch64.whl", .bdistWheel⟩]
      ⟨[], none⟩ "1.0").compatible = .ctrue :=
  (c3_registry_decision_precedence
    [⟨false, none, "pkg-1.0-cp39-cp39-manylinux2014_aarch64.whl", .bdistWheel⟩]
    ⟨[], none⟩ "1.0").1 (by decide)

/-- C7: when the wheel-test feed fetch returns no snapshot, the final
verdict's compatible value equals the registry sub-result's compatible
value for every registry result. -/
theorem c7_feed_absence_neutrality (pkg : String) (spec line : Option String)
    (direct : Bool) (parent : Option String) (r : PyPIResult) :
    (check_python_package_compatibility pkg spec line direct parent
      (some r) none).compatible = r.compatible := rfl

/-- C8: the feed accessor fetches at most once per process lifetime:
whatever the first call's fetch outcome was, every subsequent call
returns the same value, leaves the module state unchanged, and performs
no fetch. -/
theorem c8_fetch_once (o o2 : FeedFetchOutcome) :
    get_latest_wheel_tester_results
        (get_latest_wheel_tester_results initFeedState o).2.1 o2
      = ((get_latest_wheel_tester_results initFeedState o).1,
         (get_latest_wheel_tester_results initFeedState o).2.1, false) := by
  cases o <;> rfl

/-- C10: a wheel tag with no ARM identifier, no x86 identifier and no
qualifying universal tag (an `any` substring discounted alongside
`win`/`linux`/`macosx`, `universal2` qualifying only with `macosx`)
joins no evidence class; consequently a non-yanked version publishing
only a win32 wheel and a manylinux ppc64le wheel yields compatible
false via the nothing-found branch and its reason. -/
theorem c10_unclassified_wheels :
    (∀ tags : String,
      containsSub tags "aarch64" = false →
      containsSub tags "arm64" = false →
      containsSub tags "win_amd64" = false →
      containsSub tags "amd64" = false →
      containsSub tags "x86_64" = false →
      containsSub tags "x64" = false →
      (containsSub tags "any" = true →
        (containsSub tags "win" || containsSub tags "linux" ||
          containsSub tags "macosx") = true) →
      (containsSub tags "universal2" = true → containsSub tags "macosx" = false) →
      classifyWheelTags tags = .noneW)
    ∧ analyzeVersion
        [⟨false, none, "pkg-1.0-cp39-cp39-win32.whl", .bdistWheel⟩,
         ⟨false, none, "pkg-1.0-cp39-cp39-manylinux2014_ppc64le.whl", .bdistWheel⟩]
        ⟨[], none⟩ "1.0"
      = { compatible := .cfalse,
          reason := "No non-yanked wheels or source distribution found for version 1.0 on PyPI.",
          warning := none, checked_version := some "1.0" } := by
  constructor
  · intro tags h1 h2 h3 h4 h5 h6 hany huni
    unfold classifyWheelTags
    by_cases ha : containsSub tags "any" <;>
      by_cases hu : containsSub tags "universal2" <;>
      simp_all [List.any_cons] <;>
      (intros; simp_all)
  · decide

/-- C10 witness: the general classification fact applied to the
concrete win32 platform tag. -/
theorem c10_witness : classifyWheelTags "win32" = .noneW :=
  c10_unclassified_wheels.1 "win32" (by decide) (by decide) (by decide)
    (by decide) (by decide) (by decide) (by decide) (by decide)

/-- C1 counterexample: with a registry verdict of true and a feed entry
failing on its only listed environment, the final verdict keeps
compatible true but the reason is the registry reason unchanged — it
does not name the failing feed environment, contrary to the claim. -/
theorem c1_counterexample :
    (check_python_package_compatibility "demo" none none true none
      (some { compatible := .ctrue,
              reason := "ARM-specific wheels found for version 1.0.0." })
      (some [("demo", [("noble", ⟨some false, some false⟩)])])).compatible = .ctrue
    ∧ (check_python_package_compatibility "demo" none none true none
      (some { compatible := .ctrue,
              reason := "ARM-specific wheels found for version 1.0.0." })
      (some [("demo", [("noble", ⟨some false, some false⟩)])])).reason
        = "ARM-specific wheels found for version 1.0.0."
    ∧ containsSub (check_python_package_compatibility "demo" none none true none
      (some { compatible := .ctrue,
              reason := "ARM-specific wheels found for version 1.0.0." })
      (some [("demo", [("noble", ⟨some false, some false⟩)])])).reason "noble"
        = false := by decide

/-- C1 amended: with a registry verdict of true and a wheel-test feed
entry with no passing environment and at least one failing one, the
final verdict keeps compatible true and the reason is exactly the
registry reason (no feed-failure detail is appended). -/
theorem c1_registry_true_not_downgraded (pkg : String)
    (spec line : Option String) (direct : Bool) (parent : Option String)
    (r : PyPIResult) (feed : WheelFeed)
    (tests : List (String × WheelTestEnvResult)) (env : String)
    (rest : List String)
    (hc : r.compatible = .ctrue) (hw : r.warning = none)
    (hlk : lookupAssoc feed (cleanPackageName pkg) = some tests)
    (hscan : scanWheelEnvs envOrder tests = (none, env :: rest)) :
    (check_python_package_compatibility pkg spec line direct parent (some r)
      (some feed)).compatible = .ctrue
    ∧ (check_python_package_compatibility pkg spec line direct parent (some r)
      (some feed)).reason = r.reason := by
  cases feed with
  | nil => simp [lookupAssoc] at hlk
  | cons f fs =>
    constructor <;>
      simp [check_python_package_compatibility, mergeTester, hlk, hscan, hc, hw]

/-- C1 witness: the amended statement applied to a concrete package
with registry-true and a focal-only feed failure. -/
theorem c1_witness :
    (check_python_package_compatibility "demo1" none none true none
      (some { compatible := .ctrue, reason := "ARM wheels." })
      (some [("demo1", [("focal", ⟨some false, none⟩)])])).compatible = .ctrue :=
  (c1_registry_true_not_downgraded "demo1" none none true none
    { compatible := .ctrue, reason := "ARM wheels." }
    [("demo1", [("focal", ⟨some false, none⟩)])]
    [("focal", ⟨some false, none⟩)] "focal" [] rfl rfl (by decide) (by decide)).1

/-- C2 counterexample: with a feed entry failing on its only listed
environment, a registry verdict of partial is not downgraded to false
(it stays partial), and for a registry verdict of false the reason is
replaced by the feed-failure message rather than appended to the
registry reason. -/
theorem c2_counterexample :
    (check_python_package_compatibility "demo" none none true none
      (some { compatible := .partialC, reason := "Source distribution found." })
      (some [("demo", [("noble", ⟨some false, none⟩)])])).compatible = .partialC
    ∧ (check_python_package_compatibility "demo" none none true none
      (some { compatible := .cfalse,
              reason := "Only non-ARM wheels (e.g., x86_64) found." })
      (some [("demo", [("noble", ⟨some false, none⟩)])])).reason
        = "Failed on noble in Wheel Tester." := by decide

/-- C2 amended: when the feed entry has no passing environment and at
least one failing one, a registry unknown becomes false with a reason
naming the failing environment; a registry partial stays partial with
the failure detail appended (plus the compilation note); a registry
false stays false but its reason is replaced by the feed-failure
message (the append branch for false is unreachable). -/
theorem c2_feed_failure_merge (pkg : String) (spec line : Option String)
    (direct : Bool) (parent : Option String) (r : PyPIResult)
    (feed : WheelFeed) (tests : List (String × WheelTestEnvResult))
    (env : String) (rest : List String)
    (hw : r.warning = none)
    (hlk : lookupAssoc feed (cleanPackageName pkg) = some tests)
    (hscan : scanWheelEnvs envOrder tests = (none, env :: rest)) :
    (r.compatible = .unknown →
      (check_python_package_compatibility pkg spec line direct parent (some r)
        (some feed)).compatible = .cfalse
      ∧ (check_python_package_compatibility pkg spec line direct parent (some r)
        (some feed)).reason = s!"Failed on {env} in Wheel Tester.")
    ∧ (r.compatible = .partialC →
      (check_python_package_compatibility pkg spec line direct parent (some r)
        (some feed)).compatible = .partialC
      ∧ (check_python_package_compatibility pkg spec line direct parent (some r)
        (some feed)).reason
        = rstripDots (r.reason ++ s!" Additionally, failed on {env} in Wheel Tester.")
          ++ ". Source compilation might be required on ARM64.")
    ∧ (r.compatible = .cfalse →
      (check_python_package_compatibility pkg spec line direct parent (some r)
        (some feed)).compatible = .cfalse
      ∧ (check_python_package_compatibility pkg spec line direct parent (some r)
        (some feed)).reason = s!"Failed on {env} in Wheel Tester.") := by
  cases feed with
  | nil => simp [lookupAssoc] at hlk
  | cons f fs =>
    refine ⟨fun hc => ?_, fun hc => ?_, fun hc => ?_⟩ <;>
      constructor <;>
      simp [check_python_package_compatibility, mergeTester, hlk, hscan, hc, hw]

/-- C2 witness: the amended merge statement applied to a concrete
package with a registry-unknown verdict and a jammy-only feed failure. -/
theorem c2_witness :
    (check_python_package_compatibility "demo2" none none true none
      (some { compatible := .unknown, reason := "Compatibility unknown (PyPI)." })
      (some [("demo2", [("jammy", ⟨some false, none⟩)])])).compatible = .cfalse :=
  ((c2_feed_failure_merge "demo2" none none true none
    { compatible := .unknown, reason := "Compatibility unknown (PyPI)." }
    [("demo2", [("jammy", ⟨some false, none⟩)])]
    [("jammy", ⟨some false, none⟩)] "jammy" [] rfl (by decide) (by decide)).1 rfl).1

/-- C5 counterexample: a version whose only artifact is a yanked sdist
yields compatible unknown, while a version with no artifacts at all —
the same (empty) non-yanked evidence — yields compatible false: yanked
status alone changes the compatible value, contrary to the claim. -/
theorem c5_counterexample :
    (analyzeVersion [⟨true, some "broken wheel", "demo-1.0.tar.gz", .sdistT⟩]
      ⟨[], none⟩ "1.0").compatible = .unknown
    ∧ (analyzeVersion [] ⟨[], none⟩ "1.0").compatible = .cfalse := by decide

/-- C5 amended: a yanked resolved version always carries a warning
naming the yank reason; the orchestrator's final reason always ends
with the registry warning whatever the final compatible value; and
yanked status never changes the compatible value as long as any
evidence class is non-empty (only the nothing-found branch consults
it, yielding unknown instead of false). -/
theorem c5_yank_warning_surfaced (files : List ReleaseFile) (info : PkgInfo)
    (ver : String) (pkg : String) (spec line : Option String) (direct : Bool)
    (parent : Option String) (r : PyPIResult) (feed : Option WheelFeed)
    (w : String) :
    (computeYanked files = true →
      (analyzeVersion files info ver).warning
        = some s!"Version {ver} has been yanked: {pyStr (computeYankedReason files)}")
    ∧ (r.warning = some w → w ≠ "" →
      ∃ pre, (check_python_package_compatibility pkg spec line direct parent
        (some r) feed).reason = pre ++ " (Warning: " ++ w ++ ")")
    ∧ (∀ dc : DistClasses,
        dc.arm_wheels ≠ [] ∨ dc.universal_wheels ≠ [] ∨ dc.sdist_files ≠ [] ∨
          dc.other_arch_wheels ≠ [] →
        (decideCompatibility dc info true ver).compatible
          = (decideCompatibility dc info false ver).compatible) := by
  refine ⟨?_, ?_, ?_⟩
  · intro hy
    simp [analyzeVersion, hy]
  · intro hw hne
    simp only [check_python_package_compatibility, Option.some_bind, hw,
      if_neg hne]
    exact ⟨_, rfl⟩
  · intro dc h
    by_cases h1 : dc.arm_wheels = []
    · by_cases h2 : dc.universal_wheels = []
      · by_cases h3 : dc.sdist_files = []
        · by_cases h4 : dc.other_arch_wheels = []
          · rcases h with h | h | h | h <;> contradiction
          · simp [decideCompatibility, h1, h2, h3, h4]
        · by_cases h5 : nativeIndicators info <;>
            simp [decideCompatibility, h1, h2, h3, h5]
      · simp [decideCompatibility, h1, h2]
    · simp [decideCompatibility, h1]

/-- C5 witness: the amended statement's warning part applied to a
concrete yanked version. -/
theorem c5_witness :
    (analyzeVersion [⟨true, some "bad wheel", "d-1.0.tar.gz", .sdistT⟩]
      ⟨[], none⟩ "1.0").warning
      = some "Version 1.0 has been yanked: bad wheel" := by
  have h := (c5_yank_warning_surfaced
    [⟨true, some "bad wheel", "d-1.0.tar.gz", .sdistT⟩] ⟨[], none⟩ "1.0"
    "p" none none true none ⟨.unknown, "", none, none⟩ none "w").1 (by decide)
  rw [h]
  decide

/-- A produced registry result is stored under the query's cache key,
and any subsequent identical call returns the stored result with the
cache unchanged, for every fetch outcome (the stored result short-cuts
the fetch). -/
def cachedRoundTrip (name : String) (spec : Option String)
    (out : PyPIResult × PyPICache) : Prop :=
  lookupAssoc out.2 (pypiCacheKey name spec) = some out.1
  ∧ ∀ resp2, check_pypi_package_arm_compatibility out.2 name spec resp2
      = (out.1, out.2)

/-- Inserting a result under the cache key produces a cache hit and an
unchanged state on the next identical call, for every fetch outcome. -/
theorem roundTrip_of_insert (cache : PyPICache) (name : String)
    (spec : Option String) (r : PyPIResult) :
    lookupAssoc ((pypiCacheKey name spec, r) :: cache)
      (pypiCacheKey name spec) = some r
    ∧ ∀ resp2, check_pypi_package_arm_compatibility
        ((pypiCacheKey name spec, r) :: cache) name spec resp2
      = (r, (pypiCacheKey name spec, r) :: cache) := by
  constructor
  · simp [lookupAssoc]
  · intro resp2
    simp [check_pypi_package_arm_compatibility, lookupAssoc]

/-- C6: a cache hit returns the stored result unchanged for every fetch
outcome; a 404, an invalid specifier and an unsatisfiable specifier
each produce a result that is stored and returned on the next identical
call without a new fetch; a non-200/non-404 status and a network error
each produce an unknown verdict with the cache left unchanged, so the
next identical call re-attempts the fetch. -/
theorem c6_cacheability (cache : PyPICache) (name : String)
    (spec : Option String) :
    (∀ r resp, lookupAssoc cache (pypiCacheKey name spec) = some r →
      check_pypi_package_arm_compatibility cache name spec resp = (r, cache))
    ∧ (lookupAssoc cache (pypiCacheKey name spec) = none →
      cachedRoundTrip name spec
        (check_pypi_package_arm_compatibility cache name spec .notFound))
    ∧ (∀ sp data, normalizeSpec spec = some sp → parseSpecifierSet sp = none →
      lookupAssoc cache (pypiCacheKey name spec) = none →
      cachedRoundTrip name spec
        (check_pypi_package_arm_compatibility cache name spec (.ok data)))
    ∧ (∀ sp cs data, normalizeSpec spec = some sp →
      parseSpecifierSet sp = some cs →
      resolveVersion cs (data.releases.map Prod.fst) = none →
      lookupAssoc cache (pypiCacheKey name spec) = none →
      cachedRoundTrip name spec
        (check_pypi_package_arm_compatibility cache name spec (.ok data)))
    ∧ (∀ code, lookupAssoc cache (pypiCacheKey name spec) = none →
      (check_pypi_package_arm_compatibility cache name spec
        (.httpError code)).2 = cache
      ∧ (check_pypi_package_arm_compatibility cache name spec
        (.httpError code)).1.compatible = .unknown)
    ∧ (∀ msg, lookupAssoc cache (pypiCacheKey name spec) = none →
      (check_pypi_package_arm_compatibility cache name spec
        (.netError msg)).2 = cache
      ∧ (check_pypi_package_arm_compatibility cache name spec
        (.netError msg)).1.compatible = .unknown) := by
  refine ⟨?_, ?_, ?_, ?_, ?_, ?_⟩
  · intro r resp hr
    simp [check_pypi_package_arm_compatibility, hr]
  · intro hm
    have hout : check_pypi_package_arm_compatibility cache name spec .notFound
        = ((check_pypi_package_arm_compatibility cache name spec .notFound).1,
           (pypiCacheKey name spec,
            (check_pypi_package_arm_compatibility cache name spec .notFound).1)
             :: cache) := by
      simp [check_pypi_package_arm_compatibility, hm]
    rw [cachedRoundTrip, hout]
    exact roundTrip_of_insert cache name spec _
  · intro sp data hspec hparse hm
    have hout : check_pypi_package_arm_compatibility cache name spec (.ok data)
        = ((check_pypi_package_arm_compatibility cache name spec (.ok data)).1,
           (pypiCacheKey name spec,
            (check_pypi_package_arm_compatibility cache name spec (.ok data)).1)
             :: cache) := by
      simp [check_pypi_package_arm_compatibility, hm, hspec, hparse]
    rw [cachedRoundTrip, hout]
    exact roundTrip_of_insert cache name spec _
  · intro sp cs data hspec hparse hres hm
    have hout : check_pypi_package_arm_compatibility cache name spec (.ok data)
        = ((check_pypi_package_arm_compatibility cache name spec (.ok data)).1,
           (pypiCacheKey name spec,
            (check_pypi_package_arm_compatibility cache name spec (.ok data)).1)
             :: cache) := by
      simp [check_pypi_package_arm_compatibility, hm, hspec, hparse, hres]
    rw [cachedRoundTrip, hout]
    exact roundTrip_of_insert cache name spec _
  · intro code hm
    constructor <;> simp [check_pypi_package_arm_compatibility, hm]
  · intro msg hm
    constructor <;> simp [check_pypi_package_arm_compatibility, hm]

/-- C6 witness: the 404 branch of the cacheability theorem applied to
an empty cache and a concrete package name. -/
theorem c6_witness :
    cachedRoundTrip "Demo_Pkg" none
      (check_pypi_package_arm_compatibility [] "Demo_Pkg" none .notFound) :=
  (c6_cacheability [] "Demo_Pkg" none).2.1 (by decide)

end ArmChecker
